import Mathlib

/-!
Verification development for the homestar workflow runtime.

The definitions below are a shallow embedding of the Rust sources:

* `src/homestar-core/src/workflow/instruction_result.rs` — `InstructionResult`
  and its IPLD conversions;
* `src/homestar-runtime/src/event_handler/event.rs` — `Captured::publish_and_notify`
  and `QueryRecord`;
* `src/homestar-runtime/src/event_handler/swarm_event.rs` — the
  `GetRecord(Err)` branch of `handle_swarm_event`;
* `src/homestar-runtime/src/worker.rs` — `Worker::run_queue` and `resolve_cid`.

Machine integers are modeled as `Nat`; CIDs, peer ids and query ids are
abstract identifiers modeled as `Nat`; fallible operations return `Except`
or `Option`.  The WASM engine, database connection and network are
abstracted as parameters, mirroring how the source treats them as external
collaborators (spec section 1).
-/

namespace Homestar

/-- Content identifier (`libipld::Cid`), modeled abstractly. -/
abbrev Cid := Nat

/-- Peer identifier (`libp2p::PeerId`), modeled abstractly. -/
abbrev PeerId := Nat

/-- Query identifier (`libp2p::kad::QueryId`), modeled abstractly. -/
abbrev QueryId := Nat

/-- Byte strings, modeled as lists of naturals. -/
abbrev Bytes := List Nat

/-- `Cid::to_bytes`: the raw byte rendering of a CID (spec section 6: DHT keys
are the raw bytes of the CID).  Modeled as a one-element list, which keeps the
map `Cid -> Bytes` injective. -/
def cidToBytes (c : Cid) : Bytes := [c]

/-- The self-describing IPLD value model (`libipld::Ipld`): null, boolean,
integer, float, string, bytes, list, string-keyed map, link.  Floats are
represented by their 64-bit pattern, which the conversions below never
inspect. -/
inductive Ipld where
  | null
  | bool (b : Bool)
  | integer (i : Int)
  | float (bits : Nat)
  | string (s : String)
  | bytes (b : Bytes)
  | list (xs : List Ipld)
  | map (m : List (String × Ipld))
  | link (c : Cid)

/-- `InstructionResult<T>` from `homestar-core/src/workflow/instruction_result.rs`:
the tagged output of an executed instruction. -/
inductive InstructionResult (T : Type) where
  | ok (t : T)
  | error (t : T)
  | just (t : T)

namespace InstructionResult

/-- `InstructionResult::into_inner`. -/
def into_inner {T : Type} : InstructionResult T → T
  | .ok t => t
  | .error t => t
  | .just t => t

/-- Functorial map over the payload (used to model `output_as_arg`, which
re-wraps the payload while preserving the variant tag). -/
def mapPayload {T U : Type} (f : T → U) : InstructionResult T → InstructionResult U
  | .ok t => .ok (f t)
  | .error t => .error (f t)
  | .just t => .just (f t)

end InstructionResult

/-- The `OK` tag constant (`instruction_result.rs` line 18). -/
def OK : String := "ok"

/-- The `ERR` tag constant (`instruction_result.rs` line 19). -/
def ERR : String := "error"

/-- The `JUST` tag constant (`instruction_result.rs` line 20). -/
def JUST : String := "just"

/-- `impl From<InstructionResult<T>> for Ipld` at `instruction_result.rs`
lines 62-73, instantiated at `T = Ipld` (where `res.into()` is the
identity): each variant becomes a two-element list `[tag, payload]`. -/
def instructionResultToIpld : InstructionResult Ipld → Ipld
  | .ok res => .list [.string OK, res]
  | .error res => .list [.string ERR, res]
  | .just res => .list [.string JUST, res]

/-- `workflow::Error` as used by the `TryFrom` conversion: either
`unexpected_ipld` (carrying the offending list, re-wrapped) or
`not_an_ipld_list`. -/
inductive WorkflowError where
  | unexpectedIpld (v : Ipld)
  | notAnIpldList

/-- `impl TryFrom<Ipld> for InstructionResult<T>` at `instruction_result.rs`
lines 75-101, instantiated at `T = Ipld`: a slice match over the list body.
A two-element list whose head is the string `"ok"`, `"error"` or `"just"`
yields the corresponding variant; every other slice falls to the
`other_ipld` arm; a non-list input is `not_an_ipld_list`. -/
def instructionResultTryFrom (ipld : Ipld) : Except WorkflowError (InstructionResult Ipld) :=
  match ipld with
  | .list v =>
    match v with
    | [.string result, res] =>
      if result = OK then .ok (.ok res)
      else if result = ERR then .ok (.error res)
      else if result = JUST then .ok (.just res)
      else .error (.unexpectedIpld (.list v))
    | other => .error (.unexpectedIpld (.list other))
  | _ => .error .notAnIpldList

/-- Spec-side shape predicate for C7: the input is a two-element list whose
first element is one of the three tag strings. -/
def validResultShape (v : Ipld) : Bool :=
  match v with
  | .list [.string t, _] => t == OK || t == ERR || t == JUST
  | _ => false

/-! ## Workflow info (`workflow::Info`)

`homestar-runtime/src/workflow.rs` is not among the sources; the `Info`
structure and its mutators are modeled from the spec (sections 3 and 4.4). -/

/-- `workflow::Info` (spec section 3, WorkflowInfo): cid, optional name,
task count, list of receipt CIDs making up the progress, and the progress
count.  Indexed resources are omitted; no claim touches them. -/
structure Info where
  cid : Cid
  name : Option String := none
  num_tasks : Nat
  progress : List Cid
  progress_count : Nat
deriving DecidableEq, Repr

/-- Modelled from the spec: `Info::increment_progress` (source file
`workflow.rs` missing from the sources).  Spec section 4.4 step 5
("Increment the workflow's progress") together with the section 3 invariant
`progress_count = |progress|`: the receipt CID is appended to `progress`
and the count grows by one. -/
def Info.increment_progress (info : Info) (receiptCid : Cid) : Info :=
  { info with
    progress := info.progress ++ [receiptCid]
    progress_count := info.progress_count + 1 }

/-- Modelled from the spec: `Info::set_progress_count` (source file
`workflow.rs` missing from the sources), a plain setter; the caller in
`worker.rs` lines 477-481 computes the max itself. -/
def Info.set_progress_count (info : Info) (n : Nat) : Info :=
  { info with progress_count := n }

/-- `Info::cid_as_bytes`. -/
def Info.cid_as_bytes (info : Info) : Bytes := cidToBytes info.cid

/-! ## Receipt

The runtime `Receipt` lives in `homestar-runtime/src/receipt.rs`, which is
not among the sources; the fields and accessors used by `worker.rs` and
`event.rs` are modeled from the spec (section 3, Receipt entity). -/

/-- Modelled from the spec: the runtime `Receipt` record (section 3):
its own CID, the instruction CID it answers, the ran invocation CID, and
the tagged output. -/
structure Receipt where
  cid : Cid
  instruction : Cid
  ran : Cid
  out : InstructionResult Ipld

/-- Argument payloads (`homestar_wasm::io::Arg`): IPLD values as consumed
by the WASM boundary. -/
inductive Arg where
  | ipld (v : Ipld)

/-- Modelled from the spec: `Receipt::output_as_arg` re-wraps the stored
output as an `InstructionResult<Arg>`, preserving the variant tag
(spec section 9, awaited links preserve the original variant tag). -/
def Receipt.output_as_arg (r : Receipt) : InstructionResult Arg :=
  r.out.mapPayload Arg.ipld

/-- `Receipt::instruction_cid_as_bytes` (used as the DHT key of the receipt
record in `event.rs` line 323/401). -/
def Receipt.instruction_cid_as_bytes (r : Receipt) : Bytes :=
  cidToBytes r.instruction

/-! ## Event handler state and `Captured::publish_and_notify`

From `src/homestar-runtime/src/event_handler/event.rs`.  The handler's
side effects (websocket notification, gossip publish, DHT puts) are
reified as an effect list; capsule encoding is treated as total, matching
the happy path of `invocation_capsule` / `capsule`. -/

/-- `CapsuleTag` from `network/swarm.rs`: tag of a capsule, `Receipt` or
`Workflow`. -/
inductive CapsuleTag where
  | receipt
  | workflow
deriving DecidableEq, Repr

/-- `libp2p::kad::Quorum`, restricted to the two constructors the handler
builds: `One` and `N(k)`.  The source wraps `k` in `NonZeroUsize` via
`new_unchecked`; the model keeps the raw count. -/
inductive Quorum where
  | one
  | n (k : Nat)
deriving DecidableEq, Repr

/-- `RequestResponseKey` from `network/swarm.rs`: a CID (the source keeps
the string rendering) together with a capsule tag. -/
structure RequestResponseKey where
  cid : Cid
  capsule_tag : CapsuleTag
deriving DecidableEq, Repr

/-- Observable side effects of `Captured::publish_and_notify`, in the order
the source performs them. -/
inductive Effect where
  /-- `emit_receipt` websocket notification (`event.rs` lines 326-333). -/
  | emitReceipt (receiptCid : Cid) (metadata : Option Ipld)
  /-- `gossip_publish` on the receipts topic (`event.rs` lines 343-381). -/
  | gossipPublish (receiptCid : Cid)
  /-- `kademlia.put_record` of a record under `key` with quorum `q`,
  registered in `query_senders` under a fresh query id with tag `tag`
  (`event.rs` lines 395-436 and 440-484). -/
  | putRecord (key : Bytes) (tag : CapsuleTag) (q : Quorum)

/-- The fields of `EventHandler` read by `publish_and_notify`: the
connected-peers table, the pubsub switch, the two configured quorum
counts, and the receipt store keyed by receipt CID
(`Db::find_receipt_by_cid`). -/
structure EventHandlerState where
  peers : List PeerId
  pubsub_enabled : Bool
  receipt_quorum : Nat
  workflow_quorum : Nat
  db : Cid → Option Receipt

/-- `Captured` (`event.rs` lines 50-57): receipt CID, workflow info handle,
optional metadata. -/
structure Captured where
  receipt : Cid
  workflow : Info
  metadata : Option Ipld

/-- The receipt-record quorum (`event.rs` lines 383-387): `N(receipt_quorum)`
when positive, else `One`. -/
def receiptQuorumValue (eh : EventHandlerState) : Quorum :=
  if eh.receipt_quorum > 0 then .n eh.receipt_quorum else .one

/-- The workflow-record quorum (`event.rs` lines 389-393).  NOTE: the source
tests `workflow_quorum > 0` but then builds
`Quorum::N(NonZeroUsize::new_unchecked(event_handler.receipt_quorum))` —
the count inside `N` is `receipt_quorum`, not `workflow_quorum`.  The model
reproduces this literally. -/
def workflowQuorumValue (eh : EventHandlerState) : Quorum :=
  if eh.workflow_quorum > 0 then .n eh.receipt_quorum else .one

/-- `Captured::publish_and_notify` (`event.rs` lines 313-503).  Returns the
effect list and the (possibly progress-incremented) workflow info, or an
error when `Db::find_receipt_by_cid` fails.  Steps, in source order:
re-read the receipt from the store; emit the websocket notification;
short-circuit when the connected-peers table is empty; gossip when pubsub
is enabled; put the receipt record keyed by the instruction-CID bytes with
the receipt quorum; increment the workflow progress; put the workflow-info
record keyed by the workflow-CID bytes with the workflow quorum. -/
def publish_and_notify (eh : EventHandlerState) (c : Captured) :
    Except Unit (List Effect × Info) :=
  match eh.db c.receipt with
  | none => .error ()
  | some receipt =>
    let notifyEff := Effect.emitReceipt receipt.cid c.metadata
    if eh.peers.isEmpty then
      .ok ([notifyEff], c.workflow)
    else
      let gossipEffs := if eh.pubsub_enabled then [Effect.gossipPublish receipt.cid] else []
      let putReceipt :=
        Effect.putRecord receipt.instruction_cid_as_bytes CapsuleTag.receipt
          (receiptQuorumValue eh)
      let wf := c.workflow.increment_progress receipt.cid
      let putWorkflow :=
        Effect.putRecord wf.cid_as_bytes CapsuleTag.workflow (workflowQuorumValue eh)
      .ok (notifyEff :: gossipEffs ++ [putReceipt, putWorkflow], wf)

/-! ## The `GetRecord(Err)` branch of `handle_swarm_event`

From `src/homestar-runtime/src/event_handler/swarm_event.rs` lines
669-711: on a failed Kademlia `GetRecord` query, the pending entry is
removed from `query_senders` and the error is dispatched according to the
capsule tag of the registered key. -/

/-- What the handler replies on a sender channel (`ResponseEvent::Found`
with an error payload), distinguished by how the error was built. -/
inductive FoundErrReply where
  /-- `ResponseEvent::Found(Err(err.into()))` — the original Kademlia
  error, surfaced as-is (`swarm_event.rs` lines 685-689). -/
  | originalErr
  /-- `ResponseEvent::Found(Err(anyhow!("not a valid provider record
  tag: ...")))` (`swarm_event.rs` lines 692-697). -/
  | invalidTagErr (tag : CapsuleTag)
deriving DecidableEq, Repr

/-- Side effects of the `GetRecord(Err)` branch. -/
inductive SwarmEffect where
  /-- `sender.send_async(ResponseEvent::Found(Err ...))`. -/
  | sendToSender (reply : FoundErrReply)
  /-- `Event::GetProviders(QueryRecord ...)` submission — the provider
  fallback the in-source comment announces.  Listed so its absence is
  expressible; the source branch never produces it. -/
  | getProvidersQuery (key : Cid) (tag : CapsuleTag)
  /-- `warn!`/`debug!` logging only. -/
  | logOnly
deriving DecidableEq, Repr

/-- The pending-query table `query_senders`: query id to registered key
and sender presence (the sender itself is abstracted to its presence). -/
abbrev QuerySenders := List (QueryId × RequestResponseKey × Bool)

/-- `HashMap::remove`-style lookup on the pending-query table: the entry
for `id`, when present, together with the table without it. -/
def removeQuery (qs : QuerySenders) (id : QueryId) :
    Option ((RequestResponseKey × Bool) × QuerySenders) :=
  match qs with
  | [] => none
  | (qid, key, hasSender) :: rest =>
    if qid = id then some ((key, hasSender), rest)
    else match removeQuery rest id with
      | some (found, rest') => some (found, (qid, key, hasSender) :: rest')
      | none => none

/-- The `QueryResult::GetRecord(Err(err))` arm (`swarm_event.rs` lines
669-711): remove the pending entry; for a `Workflow`-tagged key send the
original error to the sender (when one is registered); for any other tag
send an "invalid provider record tag" error (or only log when no sender);
a missing entry only logs.  No `GetProviders` query is issued on any
path. -/
def handleGetRecordErr (qs : QuerySenders) (id : QueryId) :
    List SwarmEffect × QuerySenders :=
  match removeQuery qs id with
  | none => ([SwarmEffect.logOnly], qs)
  | some ((key, hasSender), qs') =>
    match key.capsule_tag, hasSender with
    | CapsuleTag.workflow, true =>
      ([SwarmEffect.sendToSender FoundErrReply.originalErr], qs')
    | CapsuleTag.workflow, false => ([], qs')
    | tag, true => ([SwarmEffect.sendToSender (FoundErrReply.invalidTagErr tag)], qs')
    | _, false => ([SwarmEffect.logOnly], qs')

/-! ## `resolve_cid`

From `src/homestar-runtime/src/worker.rs` lines 200-292.  The lock-guarded
linkmap and resource cache are passed as values; the database, the awaited
network reply and the commit outcome are parameters, mirroring how the
source treats them as external collaborators.  The database connection
itself is assumed healthy (a failed `db.conn()?` propagates its own error
before the cascade starts and is outside every claim). -/

/-- `workflow::Resource` (spec section 3): either a URL or a CID. -/
inductive Resource where
  | url (u : String)
  | cid (c : Cid)
deriving DecidableEq, Repr

/-- `ResolveError` from `homestar-core`: only the `UnresolvedCid` variant is
constructed by `resolve_cid` itself. -/
inductive ResolveError where
  | unresolvedCid (msg : String)
deriving DecidableEq, Repr

/-- The linkmap: instruction CID to cached `InstructionResult<Arg>`
(`LinkMap<InstructionResult<Arg>>` in the source). -/
abbrev LinkMap := List (Cid × InstructionResult Arg)

/-- Association-list lookup for the linkmap (`linkmap.read().await.get(&cid)`). -/
def LinkMap.lookup (m : LinkMap) (c : Cid) : Option (InstructionResult Arg) :=
  match m with
  | [] => none
  | (k, v) :: rest => if k = c then some v else LinkMap.lookup rest c

/-- The resource cache: `Resource` to raw bytes. -/
abbrev ResourceMap := List (Resource × Bytes)

/-- Association-list lookup for the resource cache
(`resources.read().await.get(&Resource::Cid(cid))`). -/
def ResourceMap.lookup (m : ResourceMap) (r : Resource) : Option Bytes :=
  match m with
  | [] => none
  | (k, v) :: rest => if k = r then some v else ResourceMap.lookup rest r

/-- `insert_into_map` (`worker.rs` lines 190-198): `entry(key).or_insert_with`
semantics — insert only when the key is absent. -/
def insert_into_map (m : LinkMap) (key : Cid) (value : InstructionResult Arg) : LinkMap :=
  match m.lookup key with
  | some _ => m
  | none => m ++ [(key, value)]

/-- `FoundEvent` from `swarm_event.rs` lines 68-73: a receipt or workflow
info found on the DHT. -/
inductive FoundEvent where
  | receipt (r : Receipt)
  | workflow (info : Info)

/-- `ResponseEvent` from `swarm_event.rs` lines 57-63, as observed on the
worker's one-shot channel: `Found(Result<FoundEvent>)` or `Providers`.
Errors are abstracted to their message. -/
inductive ResponseEvent where
  | found (res : Except String FoundEvent)
  | providers (peers : List PeerId)

/-- The reply to the worker's `FindRecord` one-shot: `some` a response
event, or `none` when `recv_deadline` hits `p2p_receipt_timeout`. -/
abbrev NetworkReply := Option ResponseEvent

/-- Result of `resolve_cid` together with the updated linkmap and whether
a `StoredRecord` event was emitted. -/
structure ResolveOutcome where
  result : Except ResolveError (InstructionResult Arg)
  linkmap : LinkMap
  storedRecordEmitted : Bool

/-- `resolve_cid` (`worker.rs` lines 200-292).  The cascade, in source
order: (1) linkmap hit; (2) resource-cache hit on `Resource::Cid(cid)`,
wrapped as `Ok(Bytes)`; (3) database receipt for the instruction CID,
returning its output (`Db::find_instruction_by_cid`, modeled by `dbFind`);
(4) network lookup: send `FindRecord` and wait on the one-shot — a found
receipt is committed (`Db::commit_receipt`, modeled by `commit`; on commit
failure `unwrap_or` falls back to the found receipt), inserted into the
linkmap and returned, while a `Found(Err)`, an unexpected reply or a
deadline expiry each yield `UnresolvedCid`. -/
def resolve_cid (cid : Cid) (linkmap : LinkMap) (resources : ResourceMap)
    (dbFind : Cid → Option Receipt) (reply : NetworkReply)
    (commit : Receipt → Option Receipt) : ResolveOutcome :=
  match linkmap.lookup cid with
  | some result => ⟨.ok result, linkmap, false⟩
  | none =>
    match resources.lookup (Resource.cid cid) with
    | some bytes => ⟨.ok (.ok (.ipld (.bytes bytes))), linkmap, false⟩
    | none =>
      match dbFind cid with
      | some found => ⟨.ok found.output_as_arg, linkmap, false⟩
      | none =>
        match reply with
        | some (.found (.ok (.receipt found))) =>
          let receipt := (commit found).getD found
          let foundResult := receipt.output_as_arg
          ⟨.ok foundResult, insert_into_map linkmap cid foundResult, true⟩
        | some (.found (.error err)) =>
          ⟨.error (.unresolvedCid ("failure in attempting to find event: " ++ err)),
            linkmap, false⟩
        | some _ =>
          ⟨.error (.unresolvedCid "wrong or unexpected event message received"),
            linkmap, false⟩
        | none =>
          ⟨.error (.unresolvedCid "timeout deadline reached for invocation receipt"),
            linkmap, false⟩

/-! ## `Worker::run_queue`

From `src/homestar-runtime/src/worker.rs` lines 184-504.  A node task is
abstracted to its instruction CID and its outcome (the `Ok` payload of the
joined task, or `none` for a resolution/execution error); the replay block
is the `websocket-notify` code path, which is the build the spec
describes. -/

/-- A scheduled node: the instruction CID and the outcome its spawned task
would produce (`some` output on success, `none` for a failed task). -/
structure Node where
  instruction : Cid
  outcome : Option Ipld

/-- The scheduler state consumed by `run_queue` (`TaskScheduler` fields as
used in `worker.rs`; `scheduler.rs` itself is not among the sources):
already-satisfied batches `ran`, batches still to run `run`, and the
resume step. -/
structure SchedulerModel where
  ran : Option (List (List Node))
  run : List (List Node)
  resume_step : Option Nat

/-- Modelled from the spec: `TaskScheduler::ran_length` (`scheduler.rs`
missing from the sources) — the number of already-satisfied nodes; spec
section 4.3 gates the replay on `ran` being non-empty. -/
def SchedulerModel.ran_length (s : SchedulerModel) : Nat :=
  ((s.ran.getD []).map List.length).sum

/-- The pointers gathered by the replay block (`worker.rs` lines 305-316):
the instruction CID of every node of every `ran` batch, in order. -/
def SchedulerModel.ranPointers (s : SchedulerModel) : List Cid :=
  ((s.ran.getD []).flatten).map Node.instruction

/-- Events a `run_queue` run sends to the event handler, with the
`replayed` metadata flag each carries (`REPLAYED_KEY` in the additional
metadata maps at `worker.rs` lines 318-325 and 353-360). -/
inductive WorkerEvent where
  /-- `Event::ReplayReceipts` with the pointer list; metadata has
  `replayed` set per the flag. -/
  | replayReceipts (pointers : List Cid) (replayed : Bool)
  /-- `Event::CapturedReceipt` for a committed receipt; metadata has
  `replayed` set per the flag. -/
  | capturedReceipt (instruction : Cid) (replayed : Bool)
deriving DecidableEq, Repr

/-- The inner `while let Some(res) = task_set.join_next()` loop of one
batch (`worker.rs` lines 437-501), with join order abstracted to spawn
order: each successful outcome is committed and emits a `CapturedReceipt`
with `replayed = false`; the first failed outcome `break`s, so the rest of
the batch is neither committed nor notified. -/
def processBatch (batch : List Node) : List WorkerEvent :=
  match batch with
  | [] => []
  | node :: rest =>
    match node.outcome with
    | some _ => WorkerEvent.capturedReceipt node.instruction false :: processBatch rest
    | none => []

/-- The batch loop of `run_queue` (`worker.rs` lines 337-502): for every
batch of `run`, in order, spawn one task per node, then process the joined
results.  Returns the emitted events and the list of nodes whose tasks
were spawned.  The `break` on a failed task only leaves the inner result
loop; the outer `for batch in scheduler.run` continues, so every node of
every batch is spawned regardless of earlier failures. -/
def runBatches (batches : List (List Node)) : List WorkerEvent × List Node :=
  match batches with
  | [] => ([], [])
  | batch :: rest =>
    let (evs, spawned) := runBatches rest
    (processBatch batch ++ evs, batch ++ spawned)

/-- `Worker::run_queue` (`worker.rs` lines 184-504): when `ran_length > 0`
emit one `ReplayReceipts` event carrying the pointers of all satisfied
nodes with `replayed = true`, then run the batches of `run`. -/
def run_queue (s : SchedulerModel) : List WorkerEvent × List Node :=
  let replayEvs :=
    if s.ran_length > 0 then [WorkerEvent.replayReceipts s.ranPointers true] else []
  let (runEvs, spawned) := runBatches s.run
  (replayEvs ++ runEvs, spawned)

/-- The per-receipt workflow-info update of the result loop (`worker.rs`
lines 477-481): when the scheduler carries a resume step, set the progress
count to the max of the current count and that step. -/
def workerReceiptUpdate (info : Info) (resume_step : Option Nat) : Info :=
  match resume_step with
  | some step => info.set_progress_count (max info.progress_count step)
  | none => info

/-- The progress mutations a single run applies to its `workflow::Info`
(claim C9): the worker's per-receipt update and the event handler's
`increment_progress` on receipt capture (`event.rs` line 438). -/
inductive ProgressOp where
  | workerUpdate (resume_step : Option Nat)
  | increment (receiptCid : Cid)

/-- Apply one progress mutation. -/
def applyProgressOp (info : Info) (op : ProgressOp) : Info :=
  match op with
  | .workerUpdate step => workerReceiptUpdate info step
  | .increment c => info.increment_progress c

/-! ## Concrete example inputs used by witnesses and counterexamples -/

/-- Boolean success test for `Except` (spec-side helper for C7). -/
def exceptSucceeded {ε α : Type} : Except ε α → Bool
  | .ok _ => true
  | .error _ => false

/-- A concrete stored receipt: receipt CID 5, instruction CID 9,
invocation CID 11, output `Ok(null)`. -/
def receiptEx : Receipt := ⟨5, 9, 11, .ok .null⟩

/-- Concrete handler state with one connected peer, pubsub off,
`receipt_quorum = 3` and `workflow_quorum = 2`, whose store holds
`receiptEx` under CID 5. -/
def ehQuorum : EventHandlerState :=
  { peers := [1]
    pubsub_enabled := false
    receipt_quorum := 3
    workflow_quorum := 2
    db := fun c => if c = 5 then some receiptEx else none }

/-- Concrete handler state with no connected peers and the same store. -/
def ehNoPeers : EventHandlerState :=
  { peers := []
    pubsub_enabled := true
    receipt_quorum := 3
    workflow_quorum := 2
    db := fun c => if c = 5 then some receiptEx else none }

/-- Concrete captured-receipt event for receipt CID 5 on a two-task
workflow with CID 77 and no progress yet. -/
def capEx : Captured :=
  { receipt := 5, workflow := ⟨77, none, 2, [], 0⟩, metadata := none }

/-- Concrete plan whose first run batch holds one failing node
(instruction 1) and whose second run batch holds one succeeding node
(instruction 2). -/
def planEx : SchedulerModel :=
  { ran := none
    run := [[⟨1, none⟩], [⟨2, some Ipld.null⟩]]
    resume_step := none }

/-- Concrete plan with one already-satisfied node (instruction 4) and one
run batch holding a succeeding node (instruction 5). -/
def planReplay : SchedulerModel :=
  { ran := some [[⟨4, some Ipld.null⟩]]
    run := [[⟨5, some Ipld.null⟩]]
    resume_step := some 1 }

/-! ## Helper lemmas -/

theorem runBatches_spawned (bs : List (List Node)) : (runBatches bs).2 = bs.flatten := by
  induction bs with
  | nil => rfl
  | cons b rest ih => simp [runBatches, ih]

theorem processBatch_events (batch : List Node) :
    ∀ ev ∈ processBatch batch, ∃ c, ev = WorkerEvent.capturedReceipt c false := by
  induction batch with
  | nil => intro ev h; cases h
  | cons node rest ih =>
    intro ev h
    unfold processBatch at h
    cases hout : node.outcome with
    | some v =>
      rw [hout] at h
      rcases List.mem_cons.mp h with h' | h'
      · exact ⟨node.instruction, h'⟩
      · exact ih ev h'
    | none => rw [hout] at h; cases h

theorem runBatches_events (bs : List (List Node)) :
    ∀ ev ∈ (runBatches bs).1, ∃ c, ev = WorkerEvent.capturedReceipt c false := by
  induction bs with
  | nil => intro ev h; cases h
  | cons b rest ih =>
    intro ev h
    simp only [runBatches] at h
    rcases List.mem_append.mp h with h' | h'
    · exact processBatch_events b ev h'
    · exact ih ev h'

theorem processBatch_upto_failure (pre post : List Node) (failing : Node)
    (hpre : ∀ n ∈ pre, n.outcome.isSome = true) (hfail : failing.outcome = none) :
    processBatch (pre ++ failing :: post)
      = pre.map fun n => WorkerEvent.capturedReceipt n.instruction false := by
  induction pre with
  | nil => simp [processBatch, hfail]
  | cons node rest ih =>
    have hnode := hpre node (List.mem_cons_self node rest)
    rcases Option.isSome_iff_exists.mp hnode with ⟨v, hv⟩
    simp only [List.cons_append, processBatch, hv, List.map_cons, List.append_eq]
    rw [ih fun n hn => hpre n (List.mem_cons_of_mem node hn)]

theorem lookup_append_of_none (m : LinkMap) (k : Cid) (v : InstructionResult Arg)
    (h : m.lookup k = none) : LinkMap.lookup (m ++ [(k, v)]) k = some v := by
  induction m with
  | nil => simp [LinkMap.lookup]
  | cons kv rest ih =>
    obtain ⟨k1, v1⟩ := kv
    unfold LinkMap.lookup at h ⊢
    by_cases hk : k1 = k
    · rw [if_pos hk] at h; cases h
    · rw [if_neg hk] at h
      simp only [List.cons_append, if_neg hk]
      exact ih h

theorem insert_into_map_lookup (m : LinkMap) (k : Cid) (v : InstructionResult Arg)
    (h : m.lookup k = none) : (insert_into_map m k v).lookup k = some v := by
  unfold insert_into_map
  rw [h]
  exact lookup_append_of_none m k v h

theorem applyProgressOp_mono (info : Info) (op : ProgressOp) :
    info.progress_count ≤ (applyProgressOp info op).progress_count := by
  cases op with
  | workerUpdate step =>
    cases step with
    | some s =>
      simp [applyProgressOp, workerReceiptUpdate, Info.set_progress_count]
    | none => simp [applyProgressOp, workerReceiptUpdate]
  | increment c =>
    simp [applyProgressOp, Info.increment_progress]

theorem foldl_increment_count (cs : List Cid) :
    ∀ info : Info,
      (cs.foldl Info.increment_progress info).progress_count
        = info.progress_count + cs.length := by
  induction cs with
  | nil => intro info; simp
  | cons c rest ih =>
    intro info
    simp only [List.foldl_cons, List.length_cons, ih, Info.increment_progress]
    omega

/-! ## Claim theorems -/

/-- Claim C7: converting an IPLD value into an `InstructionResult` succeeds
precisely when the value is a two-element list whose first element is the
string "ok", "error" or "just", yielding the `Ok`/`Error`/`Just` variant
over the second element; every other input (non-list, list of any other
length including the empty list, unknown tag) yields a decoding error.
Panic-freedom is expressed by the conversion being a total function into
`Except`: the source matches on the full slice `&v[..]`, never indexing. -/
theorem instruction_result_try_from_characterization :
    (∀ v : Ipld, instructionResultTryFrom (.list [.string OK, v]) = .ok (.ok v))
    ∧ (∀ v : Ipld, instructionResultTryFrom (.list [.string ERR, v]) = .ok (.error v))
    ∧ (∀ v : Ipld, instructionResultTryFrom (.list [.string JUST, v]) = .ok (.just v))
    ∧ (∀ w : Ipld, exceptSucceeded (instructionResultTryFrom w) = validResultShape w) := by
  refine ⟨fun v => rfl, fun v => by simp [instructionResultTryFrom, OK, ERR, JUST],
    fun v => by simp [instructionResultTryFrom, OK, ERR, JUST], fun w => ?_⟩
  cases w with
  | list xs =>
    match xs with
    | [] => rfl
    | [a] => cases a <;> rfl
    | a :: b :: c :: rest => cases a <;> rfl
    | [a, b] =>
      cases a with
      | string t =>
        by_cases h1 : t = "ok" <;> by_cases h2 : t = "error" <;> by_cases h3 : t = "just" <;>
          simp [instructionResultTryFrom, validResultShape, exceptSucceeded, h1, h2, h3,
            OK, ERR, JUST]
      | null => rfl
      | bool _ => rfl
      | integer _ => rfl
      | float _ => rfl
      | bytes _ => rfl
      | list _ => rfl
      | map _ => rfl
      | link _ => rfl
  | null => rfl
  | bool _ => rfl
  | integer _ => rfl
  | float _ => rfl
  | string _ => rfl
  | bytes _ => rfl
  | map _ => rfl
  | link _ => rfl

/-- Claim C8: for every `InstructionResult<Ipld>` value, converting to IPLD
and back returns `Ok` of the original value — the round trip preserves the
variant tag and the payload exactly. -/
theorem instruction_result_round_trip :
    ∀ r : InstructionResult Ipld,
      instructionResultTryFrom (instructionResultToIpld r) = .ok r := by
  intro r
  cases r <;> simp [instructionResultTryFrom, instructionResultToIpld, OK, ERR, JUST]

/-- Claim C5: when the connected-peers table is empty, handling a
`CapturedReceipt` performs only the local websocket notification — no
gossip publish, no DHT put of the receipt record or of the workflow-info
record, and the workflow info is not touched. -/
theorem no_peers_no_publish :
    ∀ (eh : EventHandlerState) (c : Captured) (receipt : Receipt),
      eh.peers = [] → eh.db c.receipt = some receipt →
      publish_and_notify eh c
        = .ok ([Effect.emitReceipt receipt.cid c.metadata], c.workflow) := by
  intro eh c receipt hp hdb
  simp [publish_and_notify, hdb, hp]

/-- Witness for C5 at the concrete no-peer state. -/
theorem no_peers_no_publish_witness :
    publish_and_notify ehNoPeers capEx
      = .ok ([Effect.emitReceipt 5 none], ⟨77, none, 2, [], 0⟩) :=
  no_peers_no_publish ehNoPeers capEx receiptEx rfl rfl

/-- Claim C1 fails on the code: with one peer connected, `receipt_quorum = 3`
and `workflow_quorum = 2`, the workflow-info record is put with quorum
`N(3)` — the count is taken from `receipt_quorum` (`event.rs` line 390),
not from `workflow_quorum`, so the workflow-info put quorum is not
`N(workflow_quorum)` and not independent of `receipt_quorum`. -/
theorem workflow_put_quorum_counterexample :
    publish_and_notify ehQuorum capEx
      = .ok ([Effect.emitReceipt 5 none,
              Effect.putRecord [9] CapsuleTag.receipt (Quorum.n 3),
              Effect.putRecord [77] CapsuleTag.workflow (Quorum.n 3)],
             ⟨77, none, 2, [5], 1⟩)
    ∧ ehQuorum.workflow_quorum = 2 ∧ Quorum.n (3 : Nat) ≠ Quorum.n 2 :=
  ⟨rfl, rfl, by decide⟩

/-- Claim C1 (amended): for every `CapturedReceipt` handled with at least
one peer connected, the workflow-info record is put onto the DHT with
quorum `One` when `workflow_quorum = 0` and `N(receipt_quorum)` when
`workflow_quorum > 0` (the count inside `N` comes from `receipt_quorum`),
while the receipt record is put with quorum `One` when `receipt_quorum = 0`
and `N(receipt_quorum)` otherwise. -/
theorem workflow_put_quorum_amended :
    ∀ (eh : EventHandlerState) (c : Captured) (receipt : Receipt),
      eh.db c.receipt = some receipt → eh.peers ≠ [] →
      ∃ effs wf,
        publish_and_notify eh c = .ok (effs, wf)
        ∧ Effect.putRecord wf.cid_as_bytes CapsuleTag.workflow
            (if eh.workflow_quorum = 0 then Quorum.one else Quorum.n eh.receipt_quorum)
            ∈ effs
        ∧ Effect.putRecord receipt.instruction_cid_as_bytes CapsuleTag.receipt
            (if eh.receipt_quorum = 0 then Quorum.one else Quorum.n eh.receipt_quorum)
            ∈ effs := by
  intro eh c receipt hdb hp
  have hwq : workflowQuorumValue eh
      = (if eh.workflow_quorum = 0 then Quorum.one else Quorum.n eh.receipt_quorum) := by
    unfold workflowQuorumValue
    rcases Nat.eq_zero_or_pos eh.workflow_quorum with h | h
    · simp [h]
    · simp [Nat.pos_iff_ne_zero.mp h, h]
  have hrq : receiptQuorumValue eh
      = (if eh.receipt_quorum = 0 then Quorum.one else Quorum.n eh.receipt_quorum) := by
    unfold receiptQuorumValue
    rcases Nat.eq_zero_or_pos eh.receipt_quorum with h | h
    · simp [h]
    · simp [Nat.pos_iff_ne_zero.mp h, h]
  cases hpe : eh.peers with
  | nil => exact absurd hpe hp
  | cons p ps =>
    refine ⟨Effect.emitReceipt receipt.cid c.metadata ::
        ((if eh.pubsub_enabled then [Effect.gossipPublish receipt.cid] else []) ++
         [Effect.putRecord receipt.instruction_cid_as_bytes CapsuleTag.receipt
            (receiptQuorumValue eh),
          Effect.putRecord (c.workflow.increment_progress receipt.cid).cid_as_bytes
            CapsuleTag.workflow (workflowQuorumValue eh)]),
      c.workflow.increment_progress receipt.cid, ?_, ?_, ?_⟩
    · simp [publish_and_notify, hdb, hpe]
    · rw [← hwq]
      cases eh.pubsub_enabled <;> simp
    · rw [← hrq]
      cases eh.pubsub_enabled <;> simp

/-- Witness for the amended C1 at the concrete quorum state. -/
theorem workflow_put_quorum_amended_witness :
    ∃ effs wf,
      publish_and_notify ehQuorum capEx = .ok (effs, wf)
      ∧ Effect.putRecord wf.cid_as_bytes CapsuleTag.workflow
          (if ehQuorum.workflow_quorum = 0 then Quorum.one
           else Quorum.n ehQuorum.receipt_quorum) ∈ effs
      ∧ Effect.putRecord receiptEx.instruction_cid_as_bytes CapsuleTag.receipt
          (if ehQuorum.receipt_quorum = 0 then Quorum.one
           else Quorum.n ehQuorum.receipt_quorum) ∈ effs :=
  workflow_put_quorum_amended ehQuorum capEx receiptEx rfl (by simp [ehQuorum])

/-- Claim C2 fails on the code: at a completed `GetRecord` error whose
registered pending key carries the `Workflow` capsule tag and a sender
(query id 7, key CID 42), the handler surfaces the original error to the
sender and produces no `GetProviders` query — the provider fallback
announced by the in-source comment (`swarm_event.rs` lines 675-676) never
happens. -/
theorem get_record_err_workflow_surfaces_error_no_fallback :
    handleGetRecordErr [(7, ⟨42, CapsuleTag.workflow⟩, true)] 7
      = ([SwarmEffect.sendToSender FoundErrReply.originalErr], []) := rfl

/-- Claim C3 fails on the code: in a plan whose first run batch holds a
single failing node (instruction 1) and whose second batch holds a
succeeding node (instruction 2), the node of the later batch is still
spawned — and even commits and notifies a receipt — because `break` at
`worker.rs` lines 446/453 only leaves the inner result loop while the
outer `for batch in scheduler.run` continues. -/
theorem later_batches_execute_after_failure_counterexample :
    (run_queue planEx).2 = [⟨1, none⟩, ⟨2, some Ipld.null⟩]
    ∧ (run_queue planEx).1 = [WorkerEvent.capturedReceipt 2 false] :=
  ⟨rfl, rfl⟩

/-- Claim C3 (amended): on the first failed node task of a batch the
worker stops committing that batch — outputs joined after the failure are
dropped, while receipts committed before the failure remain — but the run
is not halted: every node of every batch of the plan, later batches
included, still has its task spawned. -/
theorem batch_failure_behavior_amended :
    (∀ s : SchedulerModel, (run_queue s).2 = s.run.flatten)
    ∧ (∀ (pre post : List Node) (failing : Node),
        (∀ n ∈ pre, n.outcome.isSome = true) → failing.outcome = none →
        processBatch (pre ++ failing :: post)
          = pre.map fun n => WorkerEvent.capturedReceipt n.instruction false) := by
  constructor
  · intro s
    show (runBatches s.run).2 = s.run.flatten
    exact runBatches_spawned s.run
  · exact processBatch_upto_failure

/-- Witness for the amended C3: the spawned set of the concrete plan, and
a concrete batch with one committed receipt before the failure. -/
theorem batch_failure_behavior_amended_witness :
    (run_queue planEx).2 = planEx.run.flatten
    ∧ processBatch [⟨3, some Ipld.null⟩, ⟨1, none⟩, ⟨9, some Ipld.null⟩]
        = [WorkerEvent.capturedReceipt 3 false] :=
  ⟨batch_failure_behavior_amended.1 planEx,
   batch_failure_behavior_amended.2 [⟨3, some Ipld.null⟩] [⟨9, some Ipld.null⟩] ⟨1, none⟩
     (by intro n hn; simp only [List.mem_singleton] at hn; rw [hn]; rfl) rfl⟩

/-- Claim C6: when the scheduler's `ran` set is non-empty, `run_queue`
emits exactly one `ReplayReceipts` event — at the head of the event
stream, hence before every `CapturedReceipt` of the run — whose pointer
list holds the instruction CID of every already-satisfied node, flagged
`replayed = true`, while every later event of the run is a
`CapturedReceipt` flagged `replayed = false`. -/
theorem replay_receipts_emitted_first :
    ∀ s : SchedulerModel, s.ran_length > 0 →
      (run_queue s).1
        = WorkerEvent.replayReceipts s.ranPointers true :: (runBatches s.run).1
      ∧ (∀ ev ∈ (runBatches s.run).1, ∃ c, ev = WorkerEvent.capturedReceipt c false)
      ∧ ∀ bs, s.ran = some bs → s.ranPointers = bs.flatten.map Node.instruction := by
  intro s h
  refine ⟨?_, runBatches_events s.run, ?_⟩
  · show (if s.ran_length > 0 then [WorkerEvent.replayReceipts s.ranPointers true] else [])
        ++ (runBatches s.run).1 = _
    rw [if_pos h]
    rfl
  · intro bs hbs
    simp [SchedulerModel.ranPointers, hbs]

/-- Witness for C6 at the concrete replay plan: one satisfied node
(instruction 4), one run batch (instruction 5). -/
theorem replay_receipts_emitted_first_witness :
    (run_queue planReplay).1
      = WorkerEvent.replayReceipts planReplay.ranPointers true
          :: (runBatches planReplay.run).1
    ∧ (∀ ev ∈ (runBatches planReplay.run).1,
        ∃ c, ev = WorkerEvent.capturedReceipt c false)
    ∧ ∀ bs, planReplay.ran = some bs
        → planReplay.ranPointers = bs.flatten.map Node.instruction :=
  replay_receipts_emitted_first planReplay (by decide)

/-- Claim C4: `resolve_cid` follows exactly the cascade linkmap hit,
resource-cache hit on `Resource::Cid`, database receipt, network lookup;
in the network step a `Found(Err)` reply, an unexpected reply (workflow
info or providers) and a deadline expiry each yield `UnresolvedCid`. -/
theorem resolve_cid_cascade :
    ∀ (cid : Cid) (linkmap : LinkMap) (resources : ResourceMap)
      (dbFind : Cid → Option Receipt) (reply : NetworkReply)
      (commit : Receipt → Option Receipt),
      (∀ r, linkmap.lookup cid = some r →
        resolve_cid cid linkmap resources dbFind reply commit = ⟨.ok r, linkmap, false⟩)
      ∧ (∀ b, linkmap.lookup cid = none →
          resources.lookup (Resource.cid cid) = some b →
          resolve_cid cid linkmap resources dbFind reply commit
            = ⟨.ok (.ok (.ipld (.bytes b))), linkmap, false⟩)
      ∧ (∀ found, linkmap.lookup cid = none →
          resources.lookup (Resource.cid cid) = none → dbFind cid = some found →
          resolve_cid cid linkmap resources dbFind reply commit
            = ⟨.ok found.output_as_arg, linkmap, false⟩)
      ∧ (linkmap.lookup cid = none → resources.lookup (Resource.cid cid) = none →
          dbFind cid = none →
          (∀ err, reply = some (.found (.error err)) →
            (resolve_cid cid linkmap resources dbFind reply commit).result
              = .error (.unresolvedCid ("failure in attempting to find event: " ++ err)))
          ∧ (∀ info, reply = some (.found (.ok (.workflow info))) →
            (resolve_cid cid linkmap resources dbFind reply commit).result
              = .error (.unresolvedCid "wrong or unexpected event message received"))
          ∧ (∀ ps, reply = some (.providers ps) →
            (resolve_cid cid linkmap resources dbFind reply commit).result
              = .error (.unresolvedCid "wrong or unexpected event message received"))
          ∧ (reply = none →
            (resolve_cid cid linkmap resources dbFind reply commit).result
              = .error (.unresolvedCid
                  "timeout deadline reached for invocation receipt"))) := by
  intro cid linkmap resources dbFind reply commit
  refine ⟨?_, ?_, ?_, ?_⟩
  · intro r h
    simp [resolve_cid, h]
  · intro b h1 h2
    simp [resolve_cid, h1, h2]
  · intro found h1 h2 h3
    simp [resolve_cid, h1, h2, h3]
  · intro h1 h2 h3
    refine ⟨?_, ?_, ?_, ?_⟩
    · intro err herr
      simp [resolve_cid, h1, h2, h3, herr]
    · intro info hinfo
      simp [resolve_cid, h1, h2, h3, hinfo]
    · intro ps hps
      simp [resolve_cid, h1, h2, h3, hps]
    · intro hnone
      simp [resolve_cid, h1, h2, h3, hnone]

/-- Witness for C4: a linkmap hit and a timeout, each at concrete
inputs. -/
theorem resolve_cid_cascade_witness :
    resolve_cid 1 [(1, .ok (.ipld .null))] [] (fun _ => none) none (fun _ => none)
      = ⟨.ok (.ok (.ipld .null)), [(1, .ok (.ipld .null))], false⟩
    ∧ (resolve_cid 2 [] [] (fun _ => none) none (fun _ => none)).result
        = .error (.unresolvedCid "timeout deadline reached for invocation receipt") :=
  ⟨(resolve_cid_cascade 1 [(1, .ok (.ipld .null))] [] (fun _ => none) none
      (fun _ => none)).1 (.ok (.ipld .null)) rfl,
   ((resolve_cid_cascade 2 [] [] (fun _ => none) none
      (fun _ => none)).2.2.2 rfl rfl rfl).2.2.2 rfl⟩

/-- Claim C10: when the network lookup of `resolve_cid` receives a
`Found(Receipt)` reply but `Db::commit_receipt` fails, resolution still
succeeds — `unwrap_or` falls back to the found receipt, whose output is
returned and inserted into the linkmap, so the failed store write never
aborts the node task. -/
theorem resolve_commit_failure_still_succeeds :
    ∀ (cid : Cid) (linkmap : LinkMap) (resources : ResourceMap)
      (dbFind : Cid → Option Receipt) (commit : Receipt → Option Receipt)
      (found : Receipt),
      linkmap.lookup cid = none → resources.lookup (Resource.cid cid) = none →
      dbFind cid = none → commit found = none →
      resolve_cid cid linkmap resources dbFind
          (some (.found (.ok (.receipt found)))) commit
        = ⟨.ok found.output_as_arg, insert_into_map linkmap cid found.output_as_arg, true⟩
      ∧ (resolve_cid cid linkmap resources dbFind
          (some (.found (.ok (.receipt found)))) commit).linkmap.lookup cid
        = some found.output_as_arg := by
  intro cid linkmap resources dbFind commit found h1 h2 h3 h4
  have hmain : resolve_cid cid linkmap resources dbFind
      (some (.found (.ok (.receipt found)))) commit
      = ⟨.ok found.output_as_arg, insert_into_map linkmap cid found.output_as_arg,
         true⟩ := by
    simp [resolve_cid, h1, h2, h3, h4]
  refine ⟨hmain, ?_⟩
  rw [hmain]
  exact insert_into_map_lookup linkmap cid found.output_as_arg h1

/-- Witness for C10 at a concrete miss-everywhere state whose commit
always fails. -/
theorem resolve_commit_failure_still_succeeds_witness :
    resolve_cid 3 [] [] (fun _ => none)
        (some (.found (.ok (.receipt receiptEx)))) (fun _ => none)
      = ⟨.ok receiptEx.output_as_arg, insert_into_map [] 3 receiptEx.output_as_arg, true⟩
    ∧ (resolve_cid 3 [] [] (fun _ => none)
        (some (.found (.ok (.receipt receiptEx)))) (fun _ => none)).linkmap.lookup 3
      = some receiptEx.output_as_arg :=
  resolve_commit_failure_still_succeeds 3 [] [] (fun _ => none) (fun _ => none)
    receiptEx rfl rfl rfl rfl

theorem foldl_progress_mono (ops : List ProgressOp) :
    ∀ info : Info, info.progress_count ≤ (ops.foldl applyProgressOp info).progress_count := by
  induction ops with
  | nil => intro info; exact le_refl _
  | cons op rest ih =>
    intro info
    exact le_trans (applyProgressOp_mono info op) (ih (applyProgressOp info op))

/-- Claim C9: within a run, `progress_count` never decreases — the
worker's per-receipt update sets it to `max(current, resume_step)` and the
handler's `increment_progress` only adds — so any sequence of the two
mutations is monotone, a completed run of the remaining receipts brings
the count to `num_tasks`, and a partial run leaves it below
`num_tasks`. (`increment_progress` itself is modeled from the spec, since
`workflow.rs` is not among the sources.) -/
theorem progress_count_monotone :
    (∀ (info : Info) (step : Option Nat),
        info.progress_count ≤ (workerReceiptUpdate info step).progress_count)
    ∧ (∀ (info : Info) (step : Nat),
        (workerReceiptUpdate info (some step)).progress_count
          = max info.progress_count step)
    ∧ (∀ (info : Info) (c : Cid),
        (info.increment_progress c).progress_count = info.progress_count + 1
        ∧ (info.increment_progress c).progress = info.progress ++ [c])
    ∧ (∀ (info : Info) (ops : List ProgressOp),
        info.progress_count ≤ (ops.foldl applyProgressOp info).progress_count)
    ∧ (∀ (info : Info) (cs : List Cid),
        (cs.foldl Info.increment_progress info).progress_count
          = info.progress_count + cs.length)
    ∧ (∀ (info : Info) (cs : List Cid),
        info.progress_count + cs.length = info.num_tasks →
        (cs.foldl Info.increment_progress info).progress_count = info.num_tasks)
    ∧ (∀ (info : Info) (cs : List Cid),
        info.progress_count + cs.length < info.num_tasks →
        (cs.foldl Info.increment_progress info).progress_count < info.num_tasks) := by
  refine ⟨?_, ?_, ?_, ?_, ?_, ?_, ?_⟩
  · intro info step
    exact applyProgressOp_mono info (.workerUpdate step)
  · intro info step
    rfl
  · intro info c
    exact ⟨rfl, rfl⟩
  · intro info ops
    exact foldl_progress_mono ops info
  · intro info cs
    exact foldl_increment_count cs info
  · intro info cs h
    rw [foldl_increment_count cs info, h]
  · intro info cs h
    rw [foldl_increment_count cs info]
    exact h

/-- Witness for C9: a two-task workflow at count 1 — one more increment
completes it to 2, zero increments leave it short of 2. -/
theorem progress_count_monotone_witness :
    (([5] : List Cid).foldl Info.increment_progress ⟨77, none, 2, [], 1⟩).progress_count
      = (⟨77, none, 2, [], 1⟩ : Info).num_tasks
    ∧ (([] : List Cid).foldl Info.increment_progress ⟨77, none, 2, [], 1⟩).progress_count
      < (⟨77, none, 2, [], 1⟩ : Info).num_tasks :=
  ⟨progress_count_monotone.2.2.2.2.2.1 ⟨77, none, 2, [], 1⟩ [5] rfl,
   progress_count_monotone.2.2.2.2.2.2 ⟨77, none, 2, [], 1⟩ [] (by decide)⟩

end Homestar
